import Mathlib

/-!
Shallow embedding of `src/supabase/migrations/20250408_transaction_functions.sql`
(repository hashtagcoin/rollodex2).

The SQL file defines three transaction-control wrappers
(`begin_transaction`, `commit_transaction`, `rollback_transaction`) and one
stored procedure `create_booking_with_wallet_update` that checks a wallet's
category balance, inserts a booking row, decrements the wallet, and inserts a
claim row.

Modelling choices:
* DECIMAL amounts are exact rationals (`ℚ`).
* UUIDs are opaque strings; booking ids produced by `RETURNING id` are drawn
  from a fresh-id counter carried in the database state.
* Timestamps are integers counting days, so `NOW() + INTERVAL '90 days'`
  becomes `now + 90`; `NOW()` is passed as an explicit `now` parameter.
* A `jsonb` object (the wallet's `category_breakdown`) is an association list
  from keys to rationals: `->` is association lookup of the literal key, and
  `jsonb_set(ob, ARRAY[k], v)` replaces the value at the literal key `k`
  (appending the key when absent, which is `jsonb_set`'s default behaviour).
* `RAISE EXCEPTION` aborts the whole function call, so the procedure returns
  the original database state together with the error.
-/

/-- An association-list lookup of the literal key `k`: the embedding of both
the SQL `->` operator on a jsonb object and `SELECT ... WHERE user_id = k`
on a keyed table. -/
def assocGet {α : Type} : List (String × α) → String → Option α
  | [], _ => none
  | (k, v) :: rest, c => if k = c then some v else assocGet rest c

/-- Replace the value stored at the literal key `k` (first occurrence),
appending the binding when the key is absent: the embedding of
`jsonb_set(ob, ARRAY[k], v)` and of `UPDATE ... WHERE user_id = k`. -/
def assocSet {α : Type} : List (String × α) → String → α → List (String × α)
  | [], c, v => [(c, v)]
  | (k, w) :: rest, c, v =>
    if k = c then (c, v) :: rest else (k, w) :: assocSet rest c v

/-- Sum of the values of an association list (used to state the wallet
invariant `total_balance = sum of category balances`). -/
def sumBalances (l : List (String × ℚ)) : ℚ :=
  (l.map Prod.snd).sum

/-- A row of the `wallets` table: `total_balance DECIMAL` and the jsonb
column `category_breakdown` mapping category names to balances. -/
structure Wallet where
  total_balance : ℚ
  category_breakdown : List (String × ℚ)
deriving Repr, DecidableEq

/-- A row of the `service_bookings` table, with the columns written by the
INSERT at lines 63-81 of the SQL file (plus the generated `id`). -/
structure ServiceBooking where
  id : Nat
  user_id : String
  service_id : String
  scheduled_at : Int
  total_price : ℚ
  ndis_covered_amount : ℚ
  gap_payment : ℚ
  notes : String
  status : String
deriving Repr, DecidableEq

/-- A row of the `claims` table, with the columns written by the INSERT at
lines 95-109 of the SQL file. -/
structure Claim where
  user_id : String
  booking_id : Nat
  amount : ℚ
  status : String
  category : String
  expiry_date : Int
deriving Repr, DecidableEq

/-- The database state visible to the stored procedure: the `wallets` table
keyed by `user_id`, the `service_bookings` and `claims` tables, and the
fresh-id supply backing `RETURNING id`. -/
structure DB where
  wallets : List (String × Wallet)
  service_bookings : List ServiceBooking
  claims : List Claim
  next_booking_id : Nat
deriving Repr, DecidableEq

/-- The two domain errors `create_booking_with_wallet_update` can raise:
`Wallet not found for user` (line 52) and
`Insufficient funds in % category. Available: %` (line 59), which carries the
category name and the available balance (`COALESCE(v_category_balance, 0)`). -/
inductive BookingError where
  | walletNotFound
  | insufficientFunds (category : String) (available : ℚ)
deriving Repr, DecidableEq

/-- Embedding of `create_booking_with_wallet_update` (SQL lines 31-113).
Returns the database after the call together with either the new booking id
(`RETURN v_booking_id`) or the raised error; an error aborts the call, so in
the error cases the returned database is the input database unchanged. -/
def create_booking_with_wallet_update (db : DB) (now : Int)
    (p_user_id p_service_id : String) (p_scheduled_at : Int)
    (p_total_price p_ndis_covered_amount p_gap_payment : ℚ)
    (p_notes p_category : String) : DB × Except BookingError Nat :=
  match assocGet db.wallets p_user_id with
  | none => (db, .error .walletNotFound)
  | some v_wallet_record =>
    match assocGet v_wallet_record.category_breakdown p_category with
    | none => (db, .error (.insufficientFunds p_category 0))
    | some v_category_balance =>
      if v_category_balance < p_ndis_covered_amount then
        (db, .error (.insufficientFunds p_category v_category_balance))
      else
        let v_booking_id := db.next_booking_id
        let booking : ServiceBooking :=
          { id := v_booking_id
            user_id := p_user_id
            service_id := p_service_id
            scheduled_at := p_scheduled_at
            total_price := p_total_price
            ndis_covered_amount := p_ndis_covered_amount
            gap_payment := p_gap_payment
            notes := p_notes
            status := "pending" }
        let w' : Wallet :=
          { total_balance := v_wallet_record.total_balance - p_ndis_covered_amount
            category_breakdown :=
              assocSet v_wallet_record.category_breakdown p_category
                (v_category_balance - p_ndis_covered_amount) }
        let claim : Claim :=
          { user_id := p_user_id
            booking_id := v_booking_id
            amount := p_ndis_covered_amount
            status := "pending"
            category := p_category
            expiry_date := now + 90 }
        ({ wallets := assocSet db.wallets p_user_id w'
           service_bookings := db.service_bookings ++ [booking]
           claims := db.claims ++ [claim]
           next_booking_id := db.next_booking_id + 1 },
         .ok v_booking_id)

section AssocLemmas

theorem assocGet_assocSet_self {α : Type} (l : List (String × α)) (k : String) (v : α) :
    assocGet (assocSet l k v) k = some v := by
  induction l with
  | nil => simp [assocGet, assocSet]
  | cons p rest ih =>
    obtain ⟨k', v'⟩ := p
    by_cases h : k' = k
    · simp [assocGet, assocSet, h]
    · simp [assocGet, assocSet, h, ih]

theorem assocGet_assocSet_ne {α : Type} (l : List (String × α)) (k c : String) (v : α)
    (hne : c ≠ k) : assocGet (assocSet l k v) c = assocGet l c := by
  have hk : k ≠ c := fun h => hne h.symm
  induction l with
  | nil => simp [assocGet, assocSet, hk]
  | cons p rest ih =>
    obtain ⟨k', v'⟩ := p
    by_cases h : k' = k
    · subst h
      simp [assocGet, assocSet, hk]
    · simp only [assocSet, if_neg h]
      by_cases h' : k' = c
      · simp [assocGet, h']
      · simp [assocGet, h', ih]

theorem sumBalances_assocSet (l : List (String × ℚ)) (k : String) (b v : ℚ)
    (hget : assocGet l k = some b) :
    sumBalances (assocSet l k v) = sumBalances l - b + v := by
  induction l with
  | nil => simp [assocGet] at hget
  | cons p rest ih =>
    obtain ⟨k', v'⟩ := p
    by_cases h : k' = k
    · simp only [assocGet, if_pos h, Option.some.injEq] at hget
      subst hget
      simp only [assocSet, if_pos h, sumBalances, List.map, List.sum_cons]
      ring
    · simp only [assocGet, if_neg h] at hget
      simp only [assocSet, if_neg h, sumBalances, List.map, List.sum_cons] at ih ⊢
      rw [ih hget]
      ring

end AssocLemmas

/-- When the wallet exists and the requested category holds a sufficient
balance, the procedure rewrites the wallet, appends one booking and one claim,
and returns the fresh booking id. This characterizes the whole success path. -/
theorem run_success_eq (db : DB) (now : Int) (u sid : String) (sch : Int)
    (tp amt gp : ℚ) (nts cat : String) (w : Wallet) (b : ℚ)
    (hw : assocGet db.wallets u = some w)
    (hb : assocGet w.category_breakdown cat = some b)
    (hge : amt ≤ b) :
    create_booking_with_wallet_update db now u sid sch tp amt gp nts cat =
      ({ wallets := assocSet db.wallets u
           { total_balance := w.total_balance - amt
             category_breakdown := assocSet w.category_breakdown cat (b - amt) }
         service_bookings := db.service_bookings ++
           [{ id := db.next_booking_id, user_id := u, service_id := sid
              scheduled_at := sch, total_price := tp, ndis_covered_amount := amt
              gap_payment := gp, notes := nts, status := "pending" }]
         claims := db.claims ++
           [{ user_id := u, booking_id := db.next_booking_id, amount := amt
              status := "pending", category := cat, expiry_date := now + 90 }]
         next_booking_id := db.next_booking_id + 1 },
       .ok db.next_booking_id) := by
  simp only [create_booking_with_wallet_update, hw, hb, if_neg (not_lt.mpr hge)]

/-- Concrete wallet from the spec's test scenario:
`total_balance = 1000`, `category_breakdown = {"core": 500, "capital": 500}`. -/
def wallet0 : Wallet :=
  { total_balance := 1000, category_breakdown := [("core", 500), ("capital", 500)] }

/-- Concrete database holding only `wallet0` for user `"u1"`. -/
def db0 : DB :=
  { wallets := [("u1", wallet0)], service_bookings := [], claims := []
    next_booking_id := 0 }

/-- C1: for every wallet whose `category_breakdown` contains the requested
category with balance `b`, and every `ndisCoveredAmount` with
`b ≥ ndisCoveredAmount`, `createBookingWithWalletUpdate` succeeds, decrements
the wallet's `total_balance` by `ndisCoveredAmount`, sets the requested
category's balance to `b − ndisCoveredAmount`, and leaves the balance of every
other category unchanged. -/
theorem booking_success_decrements_requested_category (db : DB) (now : Int)
    (u sid : String) (sch : Int) (tp amt gp : ℚ) (nts cat : String)
    (w : Wallet) (b : ℚ)
    (hw : assocGet db.wallets u = some w)
    (hb : assocGet w.category_breakdown cat = some b)
    (hge : amt ≤ b) :
    ∃ w' : Wallet,
      (create_booking_with_wallet_update db now u sid sch tp amt gp nts cat).2
          = .ok db.next_booking_id ∧
      assocGet (create_booking_with_wallet_update db now u sid sch tp amt gp
          nts cat).1.wallets u = some w' ∧
      w'.total_balance = w.total_balance - amt ∧
      assocGet w'.category_breakdown cat = some (b - amt) ∧
      (∀ c, c ≠ cat → assocGet w'.category_breakdown c
          = assocGet w.category_breakdown c) := by
  refine ⟨{ total_balance := w.total_balance - amt
            category_breakdown := assocSet w.category_breakdown cat (b - amt) },
    ?_, ?_, rfl, assocGet_assocSet_self _ _ _,
    fun c hc => assocGet_assocSet_ne _ _ _ _ hc⟩
  · rw [run_success_eq db now u sid sch tp amt gp nts cat w b hw hb hge]
  · rw [run_success_eq db now u sid sch tp amt gp nts cat w b hw hb hge]
    exact assocGet_assocSet_self _ _ _

/-- Witness for C1: the spec's concrete scenario, `category = "core"`,
`ndisCoveredAmount = 200` against a 500 balance. -/
theorem booking_success_decrements_requested_category_witness :
    ∃ w' : Wallet,
      (create_booking_with_wallet_update db0 0 "u1" "s1" 0 300 200 100 "n"
          "core").2 = .ok db0.next_booking_id ∧
      assocGet (create_booking_with_wallet_update db0 0 "u1" "s1" 0 300 200 100
          "n" "core").1.wallets "u1" = some w' ∧
      w'.total_balance = wallet0.total_balance - 200 ∧
      assocGet w'.category_breakdown "core" = some (500 - 200) ∧
      (∀ c, c ≠ "core" → assocGet w'.category_breakdown c
          = assocGet wallet0.category_breakdown c) :=
  booking_success_decrements_requested_category db0 0 "u1" "s1" 0 300 200 100
    "n" "core" wallet0 500 rfl rfl (by norm_num)

/-- C2: when the requested category's balance is below `ndisCoveredAmount`, or
the category is absent (available balance treated as 0),
`createBookingWithWalletUpdate` fails with `InsufficientFunds` reporting the
category name and the available balance, and the database — wallet, bookings
and claims — is unchanged. -/
theorem booking_insufficient_funds_aborts (db : DB) (now : Int)
    (u sid : String) (sch : Int) (tp amt gp : ℚ) (nts cat : String)
    (w : Wallet)
    (hw : assocGet db.wallets u = some w)
    (hlow : ∀ b, assocGet w.category_breakdown cat = some b → b < amt) :
    create_booking_with_wallet_update db now u sid sch tp amt gp nts cat
      = (db, .error (.insufficientFunds cat
          ((assocGet w.category_breakdown cat).getD 0))) := by
  cases hb : assocGet w.category_breakdown cat with
  | none => simp [create_booking_with_wallet_update, hw, hb]
  | some b => simp [create_booking_with_wallet_update, hw, hb, hlow b hb]

/-- Witness for C2: the spec's concrete scenario, `category = "capital"`,
`ndisCoveredAmount = 600` against a 500 balance. -/
theorem booking_insufficient_funds_aborts_witness :
    create_booking_with_wallet_update db0 0 "u1" "s1" 0 700 600 100 "n"
        "capital"
      = (db0, .error (.insufficientFunds "capital"
          ((assocGet wallet0.category_breakdown "capital").getD 0))) :=
  booking_insufficient_funds_aborts db0 0 "u1" "s1" 0 700 600 100 "n"
    "capital" wallet0 rfl
    (by
      intro b hb
      rw [show assocGet wallet0.category_breakdown "capital" = some (500 : ℚ)
        from rfl] at hb
      injection hb with hb
      rw [← hb]
      norm_num)

/-- C3: for every `userId` with no wallet record,
`createBookingWithWalletUpdate` fails with `WalletNotFound` and leaves the
database — in particular the booking and claim tables — unchanged. -/
theorem booking_wallet_not_found_aborts (db : DB) (now : Int)
    (u sid : String) (sch : Int) (tp amt gp : ℚ) (nts cat : String)
    (hw : assocGet db.wallets u = none) :
    create_booking_with_wallet_update db now u sid sch tp amt gp nts cat
        = (db, .error .walletNotFound) ∧
      (create_booking_with_wallet_update db now u sid sch tp amt gp nts
          cat).1.service_bookings = db.service_bookings ∧
      (create_booking_with_wallet_update db now u sid sch tp amt gp nts
          cat).1.claims = db.claims := by
  unfold create_booking_with_wallet_update
  rw [hw]
  exact ⟨rfl, rfl, rfl⟩

/-- Witness for C3: user `"u2"` has no wallet in `db0`. -/
theorem booking_wallet_not_found_aborts_witness :
    create_booking_with_wallet_update db0 0 "u2" "s1" 0 300 200 100 "n" "core"
        = (db0, .error .walletNotFound) ∧
      (create_booking_with_wallet_update db0 0 "u2" "s1" 0 300 200 100 "n"
          "core").1.service_bookings = db0.service_bookings ∧
      (create_booking_with_wallet_update db0 0 "u2" "s1" 0 300 200 100 "n"
          "core").1.claims = db0.claims :=
  booking_wallet_not_found_aborts db0 0 "u2" "s1" 0 300 200 100 "n" "core" rfl

/-- C4: every successful invocation appends exactly one booking row with
status `pending`, appends exactly one claim row referencing that booking with
amount `ndisCoveredAmount`, status `pending`, the requested category and
expiry `now + 90 days`, and returns the new booking's identifier. -/
theorem booking_success_inserts_booking_and_claim (db : DB) (now : Int)
    (u sid : String) (sch : Int) (tp amt gp : ℚ) (nts cat : String)
    (w : Wallet) (b : ℚ)
    (hw : assocGet db.wallets u = some w)
    (hb : assocGet w.category_breakdown cat = some b)
    (hge : amt ≤ b) :
    (create_booking_with_wallet_update db now u sid sch tp amt gp nts
        cat).1.service_bookings = db.service_bookings ++
      [{ id := db.next_booking_id, user_id := u, service_id := sid
         scheduled_at := sch, total_price := tp, ndis_covered_amount := amt
         gap_payment := gp, notes := nts, status := "pending" }] ∧
    (create_booking_with_wallet_update db now u sid sch tp amt gp nts
        cat).1.claims = db.claims ++
      [{ user_id := u, booking_id := db.next_booking_id, amount := amt
         status := "pending", category := cat, expiry_date := now + 90 }] ∧
    (create_booking_with_wallet_update db now u sid sch tp amt gp nts cat).2
      = .ok db.next_booking_id := by
  rw [run_success_eq db now u sid sch tp amt gp nts cat w b hw hb hge]
  exact ⟨rfl, rfl, rfl⟩

/-- Witness for C4: the spec's concrete scenario appends the booking with id 0
and the claim expiring at day 90. -/
theorem booking_success_inserts_booking_and_claim_witness :
    (create_booking_with_wallet_update db0 7 "u1" "s1" 3 300 200 100 "n"
        "core").1.service_bookings = db0.service_bookings ++
      [{ id := db0.next_booking_id, user_id := "u1", service_id := "s1"
         scheduled_at := 3, total_price := 300, ndis_covered_amount := 200
         gap_payment := 100, notes := "n", status := "pending" }] ∧
    (create_booking_with_wallet_update db0 7 "u1" "s1" 3 300 200 100 "n"
        "core").1.claims = db0.claims ++
      [{ user_id := "u1", booking_id := db0.next_booking_id, amount := 200
         status := "pending", category := "core", expiry_date := 7 + 90 }] ∧
    (create_booking_with_wallet_update db0 7 "u1" "s1" 3 300 200 100 "n"
        "core").2 = .ok db0.next_booking_id :=
  booking_success_inserts_booking_and_claim db0 7 "u1" "s1" 3 300 200 100 "n"
    "core" wallet0 500 rfl rfl (by norm_num)

/-- C5: if `total_balance` equals the sum of the category balances before a
successful invocation, the equality still holds afterwards: both sides drop by
the same `ndisCoveredAmount`. -/
theorem booking_success_preserves_balance_invariant (db : DB) (now : Int)
    (u sid : String) (sch : Int) (tp amt gp : ℚ) (nts cat : String)
    (w : Wallet) (b : ℚ)
    (hw : assocGet db.wallets u = some w)
    (hb : assocGet w.category_breakdown cat = some b)
    (hge : amt ≤ b)
    (hinv : w.total_balance = sumBalances w.category_breakdown) :
    ∃ w' : Wallet,
      assocGet (create_booking_with_wallet_update db now u sid sch tp amt gp
          nts cat).1.wallets u = some w' ∧
      w'.total_balance = sumBalances w'.category_breakdown := by
  refine ⟨{ total_balance := w.total_balance - amt
            category_breakdown := assocSet w.category_breakdown cat (b - amt) },
    ?_, ?_⟩
  · rw [run_success_eq db now u sid sch tp amt gp nts cat w b hw hb hge]
    exact assocGet_assocSet_self _ _ _
  · show w.total_balance - amt
      = sumBalances (assocSet w.category_breakdown cat (b - amt))
    rw [sumBalances_assocSet w.category_breakdown cat b (b - amt) hb, hinv]
    ring

/-- Witness for C5: `1000 = 500 + 500` before the call, `800 = 300 + 500`
after it. -/
theorem booking_success_preserves_balance_invariant_witness :
    ∃ w' : Wallet,
      assocGet (create_booking_with_wallet_update db0 0 "u1" "s1" 0 300 200 100
          "n" "core").1.wallets "u1" = some w' ∧
      w'.total_balance = sumBalances w'.category_breakdown :=
  booking_success_preserves_balance_invariant db0 0 "u1" "s1" 0 300 200 100 "n"
    "core" wallet0 500 rfl rfl (by norm_num) (by norm_num [wallet0, sumBalances])

/-- C6: the balance check and the balance update address the same literal
key: for every category name, on success the new `category_breakdown` is
exactly the old one rewritten at the key that was read, so reading the checked
key afterwards returns the checked balance minus `ndisCoveredAmount`. -/
theorem booking_check_and_update_address_same_key (db : DB) (now : Int)
    (u sid : String) (sch : Int) (tp amt gp : ℚ) (nts cat : String)
    (w : Wallet) (b : ℚ)
    (hw : assocGet db.wallets u = some w)
    (hb : assocGet w.category_breakdown cat = some b)
    (hge : amt ≤ b) :
    ∃ w' : Wallet,
      assocGet (create_booking_with_wallet_update db now u sid sch tp amt gp
          nts cat).1.wallets u = some w' ∧
      w'.category_breakdown = assocSet w.category_breakdown cat (b - amt) ∧
      assocGet w'.category_breakdown cat = some (b - amt) := by
  refine ⟨{ total_balance := w.total_balance - amt
            category_breakdown := assocSet w.category_breakdown cat (b - amt) },
    ?_, rfl, assocGet_assocSet_self _ _ _⟩
  rw [run_success_eq db now u sid sch tp amt gp nts cat w b hw hb hge]
  exact assocGet_assocSet_self _ _ _

/-- Concrete wallet whose single category name contains characters that need
escaping in a JSON key path: a double quote, a dot and brackets. -/
def walletOdd : Wallet :=
  { total_balance := 50, category_breakdown := [("a\"b.c[0]", 50)] }

/-- Concrete database holding `walletOdd` for user `"u1"`. -/
def dbOdd : DB :=
  { wallets := [("u1", walletOdd)], service_bookings := [], claims := []
    next_booking_id := 0 }

/-- Witness for C6: a category name containing a quote, a dot and brackets is
checked and decremented at the same key. -/
theorem booking_check_and_update_address_same_key_witness :
    ∃ w' : Wallet,
      assocGet (create_booking_with_wallet_update dbOdd 0 "u1" "s1" 0 20 20 0
          "n" "a\"b.c[0]").1.wallets "u1" = some w' ∧
      w'.category_breakdown
        = assocSet walletOdd.category_breakdown "a\"b.c[0]" (50 - 20) ∧
      assocGet w'.category_breakdown "a\"b.c[0]" = some (50 - 20) :=
  booking_check_and_update_address_same_key dbOdd 0 "u1" "s1" 0 20 20 0 "n"
    "a\"b.c[0]" walletOdd 50 rfl rfl (by norm_num)

/-- C7: the procedure is not idempotent. When the category balance covers two
deductions, two successive calls with identical arguments both succeed, return
two distinct booking ids, append two booking rows and two claim rows, and
deduct `ndisCoveredAmount` twice from both the total and the category. -/
theorem booking_not_idempotent (db : DB) (now : Int)
    (u sid : String) (sch : Int) (tp amt gp : ℚ) (nts cat : String)
    (w : Wallet) (b : ℚ)
    (hw : assocGet db.wallets u = some w)
    (hb : assocGet w.category_breakdown cat = some b)
    (hge1 : amt ≤ b) (h2 : amt + amt ≤ b) :
    (create_booking_with_wallet_update db now u sid sch tp amt gp nts cat).2
        = .ok db.next_booking_id ∧
    (create_booking_with_wallet_update
        (create_booking_with_wallet_update db now u sid sch tp amt gp nts
          cat).1 now u sid sch tp amt gp nts cat).2
        = .ok (db.next_booking_id + 1) ∧
    db.next_booking_id ≠ db.next_booking_id + 1 ∧
    (create_booking_with_wallet_update
        (create_booking_with_wallet_update db now u sid sch tp amt gp nts
          cat).1 now u sid sch tp amt gp nts cat).1.service_bookings.length
        = db.service_bookings.length + 2 ∧
    (create_booking_with_wallet_update
        (create_booking_with_wallet_update db now u sid sch tp amt gp nts
          cat).1 now u sid sch tp amt gp nts cat).1.claims.length
        = db.claims.length + 2 ∧
    ∃ w' : Wallet,
      assocGet (create_booking_with_wallet_update
          (create_booking_with_wallet_update db now u sid sch tp amt gp nts
            cat).1 now u sid sch tp amt gp nts cat).1.wallets u = some w' ∧
      w'.total_balance = w.total_balance - (amt + amt) ∧
      assocGet w'.category_breakdown cat = some (b - (amt + amt)) := by
  have h1 := run_success_eq db now u sid sch tp amt gp nts cat w b hw hb hge1
  set w1 : Wallet :=
    { total_balance := w.total_balance - amt
      category_breakdown := assocSet w.category_breakdown cat (b - amt) }
    with hw1def
  have hw2 : assocGet (create_booking_with_wallet_update db now u sid sch tp
      amt gp nts cat).1.wallets u = some w1 := by
    rw [h1]
    exact assocGet_assocSet_self _ _ _
  have hb2 : assocGet w1.category_breakdown cat = some (b - amt) :=
    assocGet_assocSet_self _ _ _
  have hge2 : amt ≤ b - amt := by linarith
  have h2eq := run_success_eq
    (create_booking_with_wallet_update db now u sid sch tp amt gp nts cat).1
    now u sid sch tp amt gp nts cat w1 (b - amt) hw2 hb2 hge2
  have hnext : (create_booking_with_wallet_update db now u sid sch tp amt gp
      nts cat).1.next_booking_id = db.next_booking_id + 1 := by
    rw [h1]
  refine ⟨?_, ?_, Nat.ne_of_lt (Nat.lt_succ_self _), ?_, ?_, ?_⟩
  · rw [h1]
  · rw [h2eq, hnext]
  · rw [h2eq]
    simp only [List.length_append, List.length_cons, List.length_nil]
    rw [h1]
    simp [List.length_append]
  · rw [h2eq]
    simp only [List.length_append, List.length_cons, List.length_nil]
    rw [h1]
    simp [List.length_append]
  · refine ⟨{ total_balance := w1.total_balance - amt
              category_breakdown :=
                assocSet w1.category_breakdown cat ((b - amt) - amt) },
      ?_, ?_, ?_⟩
    · rw [h2eq]
      exact assocGet_assocSet_self _ _ _
    · show w1.total_balance - amt = w.total_balance - (amt + amt)
      rw [hw1def]
      ring
    · show assocGet (assocSet w1.category_breakdown cat ((b - amt) - amt)) cat
        = some (b - (amt + amt))
      rw [assocGet_assocSet_self]
      congr 1
      ring

/-- Witness for C7: two identical calls deducting 200 from the 500 balance
leave 100 in the category and 600 in total, with bookings 0 and 1. -/
theorem booking_not_idempotent_witness :
    (create_booking_with_wallet_update db0 0 "u1" "s1" 0 300 200 100 "n"
        "core").2 = .ok db0.next_booking_id ∧
    (create_booking_with_wallet_update
        (create_booking_with_wallet_update db0 0 "u1" "s1" 0 300 200 100 "n"
          "core").1 0 "u1" "s1" 0 300 200 100 "n" "core").2
        = .ok (db0.next_booking_id + 1) ∧
    db0.next_booking_id ≠ db0.next_booking_id + 1 ∧
    (create_booking_with_wallet_update
        (create_booking_with_wallet_update db0 0 "u1" "s1" 0 300 200 100 "n"
          "core").1 0 "u1" "s1" 0 300 200 100 "n"
          "core").1.service_bookings.length
        = db0.service_bookings.length + 2 ∧
    (create_booking_with_wallet_update
        (create_booking_with_wallet_update db0 0 "u1" "s1" 0 300 200 100 "n"
          "core").1 0 "u1" "s1" 0 300 200 100 "n" "core").1.claims.length
        = db0.claims.length + 2 ∧
    ∃ w' : Wallet,
      assocGet (create_booking_with_wallet_update
          (create_booking_with_wallet_update db0 0 "u1" "s1" 0 300 200 100 "n"
            "core").1 0 "u1" "s1" 0 300 200 100 "n" "core").1.wallets "u1"
          = some w' ∧
      w'.total_balance = wallet0.total_balance - (200 + 200) ∧
      assocGet w'.category_breakdown "core" = some (500 - (200 + 200)) :=
  booking_not_idempotent db0 0 "u1" "s1" 0 300 200 100 "n" "core" wallet0 500
    rfl rfl (by norm_num) (by norm_num)

/-- The transaction environment seen by the three wrapper functions (SQL
lines 4-28): the committed database, and the pending view of an explicit
transaction block when one is open (`none` outside a transaction block). -/
structure TxnEnv where
  committed : DB
  active : Option DB
deriving Repr, DecidableEq

/-- The one condition the wrappers can report: there is no active transaction
to commit or roll back. It is an environment condition, not a domain error. -/
inductive TxnError where
  | noActiveTransaction
deriving Repr, DecidableEq

/-- Embedding of `begin_transaction` (SQL lines 4-10): opens a unit of work;
inside an already open transaction block it is a no-op. No parameters, no
return value, no business logic. -/
def begin_transaction (e : TxnEnv) : TxnEnv :=
  match e.active with
  | some _ => e
  | none => { e with active := some e.committed }

/-- Embedding of `commit_transaction` (SQL lines 13-19): finalizes the
pending writes wholesale; with no active transaction it is a no-op that
reports `noActiveTransaction`. -/
def commit_transaction (e : TxnEnv) : TxnEnv × Option TxnError :=
  match e.active with
  | some d => ({ committed := d, active := none }, none)
  | none => (e, some .noActiveTransaction)

/-- Embedding of `rollback_transaction` (SQL lines 22-28): discards the
pending writes; with no active transaction it is a no-op that reports
`noActiveTransaction`. -/
def rollback_transaction (e : TxnEnv) : TxnEnv × Option TxnError :=
  match e.active with
  | some _ => ({ e with active := none }, none)
  | none => (e, some .noActiveTransaction)

/-- C8: the three wrappers take no arguments beyond the ambient transaction
environment, return no value, and carry no business logic: begin opens a unit
of work and never touches the committed database, commit promotes the pending
view wholesale, rollback discards it and never touches the committed
database; their only reportable condition is `noActiveTransaction`, reported
exactly when no transaction block is open, in which case they are no-ops. -/
theorem transaction_wrappers_trivial (e : TxnEnv) :
    (begin_transaction e).committed = e.committed ∧
    (rollback_transaction e).1.committed = e.committed ∧
    ((commit_transaction e).2 = some .noActiveTransaction ↔ e.active = none) ∧
    ((rollback_transaction e).2 = some .noActiveTransaction ↔
      e.active = none) ∧
    (e.active = none →
      begin_transaction e = { e with active := some e.committed } ∧
      commit_transaction e = (e, some .noActiveTransaction) ∧
      rollback_transaction e = (e, some .noActiveTransaction)) ∧
    (∀ d, e.active = some d →
      begin_transaction e = e ∧
      commit_transaction e = ({ committed := d, active := none }, none) ∧
      rollback_transaction e = ({ e with active := none }, none)) := by
  obtain ⟨c, a⟩ := e
  cases a with
  | none =>
    refine ⟨rfl, rfl, by simp [commit_transaction],
      by simp [rollback_transaction], fun _ => ⟨rfl, rfl, rfl⟩, ?_⟩
    intro d hd
    exact absurd hd (by simp)
  | some d0 =>
    refine ⟨rfl, rfl, by simp [commit_transaction],
      by simp [rollback_transaction], fun h => absurd h (by simp), ?_⟩
    intro d hd
    obtain rfl : d0 = d := by simpa using hd
    exact ⟨rfl, rfl, rfl⟩

/-- Witness for C8: with no open transaction block, commit and rollback are
no-ops that report `noActiveTransaction`, and begin opens a block holding the
committed database. -/
theorem transaction_wrappers_trivial_witness :
    begin_transaction ⟨db0, none⟩ = ⟨db0, some db0⟩ ∧
    commit_transaction ⟨db0, none⟩ = (⟨db0, none⟩, some .noActiveTransaction) ∧
    rollback_transaction ⟨db0, none⟩
      = (⟨db0, none⟩, some .noActiveTransaction) :=
  (transaction_wrappers_trivial ⟨db0, none⟩).2.2.2.2.1 rfl

/-- Concrete database whose wallet holds a negative balance in the requested
category, so the sufficiency check fails even for a negative amount. -/
def dbNeg : DB :=
  { wallets := [("u1", { total_balance := -3
                         category_breakdown := [("core", -3)] })]
    service_bookings := [], claims := [], next_booking_id := 0 }

/-- Counterexample for C9 as stated: the category is present (with balance
−3) and `ndisCoveredAmount = −1 ≤ 0`, yet `b ≥ ndisCoveredAmount` does not
hold and the call fails with `InsufficientFunds` instead of succeeding. -/
theorem booking_negative_amount_counterexample :
    ((-1 : ℚ) ≤ 0) ∧
    assocGet dbNeg.wallets "u1"
      = some { total_balance := -3, category_breakdown := [("core", -3)] } ∧
    (create_booking_with_wallet_update dbNeg 0 "u1" "s1" 0 0 (-1) 0 "n"
        "core").2 = .error (.insufficientFunds "core" (-3)) :=
  ⟨by norm_num, rfl, by
    have hlt : (-3 : ℚ) < -1 := by norm_num
    simp [create_booking_with_wallet_update, dbNeg, assocGet, hlt]⟩

/-- C9 (amended): the procedure performs no sign validation on
`ndisCoveredAmount`. For every wallet whose breakdown contains the requested
category with balance `b`, and every `ndisCoveredAmount ≤ 0` with
`b ≥ ndisCoveredAmount`, the call succeeds, increases (or for zero leaves
equal) both the total balance and the category balance by the absolute value
of the amount, and files a claim with a non-positive amount. -/
theorem booking_negative_amount_credits_wallet (db : DB) (now : Int)
    (u sid : String) (sch : Int) (tp amt gp : ℚ) (nts cat : String)
    (w : Wallet) (b : ℚ)
    (hw : assocGet db.wallets u = some w)
    (hb : assocGet w.category_breakdown cat = some b)
    (hneg : amt ≤ 0) (hge : amt ≤ b) :
    ∃ w' : Wallet,
      (create_booking_with_wallet_update db now u sid sch tp amt gp nts cat).2
          = .ok db.next_booking_id ∧
      assocGet (create_booking_with_wallet_update db now u sid sch tp amt gp
          nts cat).1.wallets u = some w' ∧
      w'.total_balance = w.total_balance + |amt| ∧
      w.total_balance ≤ w'.total_balance ∧
      assocGet w'.category_breakdown cat = some (b + |amt|) ∧
      b ≤ b + |amt| ∧
      (create_booking_with_wallet_update db now u sid sch tp amt gp nts
          cat).1.claims = db.claims ++
        [{ user_id := u, booking_id := db.next_booking_id, amount := amt
           status := "pending", category := cat, expiry_date := now + 90 }] ∧
      amt ≤ 0 := by
  have habs : |amt| = -amt := abs_of_nonpos hneg
  have heq : b - amt = b + |amt| := by rw [habs]; ring
  refine ⟨{ total_balance := w.total_balance - amt
            category_breakdown := assocSet w.category_breakdown cat (b - amt) },
    ?_, ?_, ?_, ?_, ?_, ?_, ?_, hneg⟩
  · rw [run_success_eq db now u sid sch tp amt gp nts cat w b hw hb hge]
  · rw [run_success_eq db now u sid sch tp amt gp nts cat w b hw hb hge]
    exact assocGet_assocSet_self _ _ _
  · show w.total_balance - amt = w.total_balance + |amt|
    rw [habs]; ring
  · show w.total_balance ≤ w.total_balance - amt
    linarith
  · rw [assocGet_assocSet_self, heq]
  · linarith [abs_nonneg amt]
  · rw [run_success_eq db now u sid sch tp amt gp nts cat w b hw hb hge]

/-- Witness for C9 (amended): a call with `ndisCoveredAmount = −50` against
the 500 `core` balance succeeds and credits the wallet with 50. -/
theorem booking_negative_amount_credits_wallet_witness :
    ∃ w' : Wallet,
      (create_booking_with_wallet_update db0 0 "u1" "s1" 0 0 (-50) 0 "n"
          "core").2 = .ok db0.next_booking_id ∧
      assocGet (create_booking_with_wallet_update db0 0 "u1" "s1" 0 0 (-50) 0
          "n" "core").1.wallets "u1" = some w' ∧
      w'.total_balance = wallet0.total_balance + |(-50 : ℚ)| ∧
      wallet0.total_balance ≤ w'.total_balance ∧
      assocGet w'.category_breakdown "core" = some (500 + |(-50 : ℚ)|) ∧
      (500 : ℚ) ≤ 500 + |(-50 : ℚ)| ∧
      (create_booking_with_wallet_update db0 0 "u1" "s1" 0 0 (-50) 0 "n"
          "core").1.claims = db0.claims ++
        [{ user_id := "u1", booking_id := db0.next_booking_id, amount := -50
           status := "pending", category := "core", expiry_date := 0 + 90 }] ∧
      (-50 : ℚ) ≤ 0 :=
  booking_negative_amount_credits_wallet db0 0 "u1" "s1" 0 0 (-50) 0 "n"
    "core" wallet0 500 rfl rfl (by norm_num) (by norm_num)

/-- Erase the two price fields that the wallet debit must not depend on. -/
def scrubPrices (bk : ServiceBooking) : ServiceBooking :=
  { bk with total_price := 0, gap_payment := 0 }

/-- Everything the procedure produces except the booking rows' price fields:
wallets, claims, bookings with prices erased, the id supply, and the
returned value or error. -/
def nonPriceView (r : DB × Except BookingError Nat) :
    List (String × Wallet) × List Claim × List ServiceBooking × Nat ×
      Except BookingError Nat :=
  (r.1.wallets, r.1.claims, r.1.service_bookings.map scrubPrices,
   r.1.next_booking_id, r.2)

/-- C10: the wallet debit depends only on `ndisCoveredAmount`. For all values
of `totalPrice` and `gapPayment` — never checked against each other or the
amount — every output of the procedure except the booking row's price fields
is the same, and on success the wallet changes by exactly
`ndisCoveredAmount` while `totalPrice` and `gapPayment` are only recorded on
the booking row. -/
theorem booking_debit_independent_of_price_split (db : DB) (now : Int)
    (u sid : String) (sch : Int) (tp gp tp2 gp2 amt : ℚ) (nts cat : String)
    (w : Wallet) (b : ℚ)
    (hw : assocGet db.wallets u = some w)
    (hb : assocGet w.category_breakdown cat = some b)
    (hge : amt ≤ b) :
    (∀ dbx : DB,
      nonPriceView (create_booking_with_wallet_update dbx now u sid sch tp amt
          gp nts cat)
        = nonPriceView (create_booking_with_wallet_update dbx now u sid sch
          tp2 amt gp2 nts cat)) ∧
    (∃ w' : Wallet,
      assocGet (create_booking_with_wallet_update db now u sid sch tp amt gp
          nts cat).1.wallets u = some w' ∧
      w'.total_balance = w.total_balance - amt ∧
      assocGet w'.category_breakdown cat = some (b - amt)) ∧
    (create_booking_with_wallet_update db now u sid sch tp amt gp nts
        cat).1.service_bookings = db.service_bookings ++
      [{ id := db.next_booking_id, user_id := u, service_id := sid
         scheduled_at := sch, total_price := tp, ndis_covered_amount := amt
         gap_payment := gp, notes := nts, status := "pending" }] := by
  refine ⟨?_, ⟨{ total_balance := w.total_balance - amt
                 category_breakdown :=
                   assocSet w.category_breakdown cat (b - amt) },
    ?_, rfl, assocGet_assocSet_self _ _ _⟩, ?_⟩
  · intro dbx
    cases hwx : assocGet dbx.wallets u with
    | none => simp [create_booking_with_wallet_update, hwx]
    | some wx =>
      cases hbx : assocGet wx.category_breakdown cat with
      | none => simp [create_booking_with_wallet_update, hwx, hbx]
      | some bx =>
        by_cases hlt : bx < amt
        · simp [create_booking_with_wallet_update, hwx, hbx, hlt]
        · simp [create_booking_with_wallet_update, hwx, hbx, hlt,
            nonPriceView, scrubPrices]
  · rw [run_success_eq db now u sid sch tp amt gp nts cat w b hw hb hge]
    exact assocGet_assocSet_self _ _ _
  · rw [run_success_eq db now u sid sch tp amt gp nts cat w b hw hb hge]

/-- Witness for C10: price splits (300, 100) and (9999, −5) produce the same
wallets, claims and returned id, and the debit is 200 either way. -/
theorem booking_debit_independent_of_price_split_witness :
    (∀ dbx : DB,
      nonPriceView (create_booking_with_wallet_update dbx 0 "u1" "s1" 0 300
          200 100 "n" "core")
        = nonPriceView (create_booking_with_wallet_update dbx 0 "u1" "s1" 0
          9999 200 (-5) "n" "core")) ∧
    (∃ w' : Wallet,
      assocGet (create_booking_with_wallet_update db0 0 "u1" "s1" 0 300 200
          100 "n" "core").1.wallets "u1" = some w' ∧
      w'.total_balance = wallet0.total_balance - 200 ∧
      assocGet w'.category_breakdown "core" = some (500 - 200)) ∧
    (create_booking_with_wallet_update db0 0 "u1" "s1" 0 300 200 100 "n"
        "core").1.service_bookings = db0.service_bookings ++
      [{ id := db0.next_booking_id, user_id := "u1", service_id := "s1"
         scheduled_at := 0, total_price := 300, ndis_covered_amount := 200
         gap_payment := 100, notes := "n", status := "pending" }] :=
  booking_debit_independent_of_price_split db0 0 "u1" "s1" 0 300 100 9999
    (-5) 200 "n" "core" wallet0 500 rfl rfl (by norm_num)
